import Mathlib

/-!
Verification of the neatlogs span capture, normalization, grouping and
asynchronous delivery pipeline.

The definitions below are a shallow embedding of the Python sources:
  * `src/neatlogs/otel/new_processor.py` (serializer, grouping resolver,
    span processor),
  * `src/neatlogs/new_core.py` (tracker, delivery queue and worker,
    shutdown protocol, module-level tracker slot),
  * `src/neatlogs/__init__.py` (the package-level `init` entry point and
    its own module-level tracker slot).

Python attribute values are modelled by the inductive `PyVal`; machine
concerns such as float intricacies never matter here (floats only flow
through serialization unchanged), so a float is carried as a rational.
The worker thread is modelled by linearizing its consumption of the FIFO
queue at the point where `shutdown` joins the queue: for the drain and
ordering properties proved below this is equivalent to the eager
concurrent consumption, because all enqueues of interest happen before
the sentinel.
-/

namespace Neatlogs

/-- Model of a Python runtime value as far as the pipeline inspects it.
`vobj` is any object of a type other than
str/int/float/bool/list/dict/NoneType; it carries its `str()` rendering. -/
inductive PyVal where
  | vstr : String → PyVal
  | vint : Int → PyVal
  | vfloat : Rat → PyVal
  | vbool : Bool → PyVal
  | vlist : List PyVal → PyVal
  | vdict : List (String × PyVal) → PyVal
  | vnone : PyVal
  | vobj : String → PyVal

/-- Python truthiness (`if v:`) for the modelled values. -/
def PyVal.truthy : PyVal → Bool
  | .vstr s => !s.isEmpty
  | .vint n => n != 0
  | .vfloat q => q != 0
  | .vbool b => b
  | .vlist xs => !xs.isEmpty
  | .vdict xs => !xs.isEmpty
  | .vnone => false
  | .vobj _ => true

/-- Python `str(v)`.  The claims only ever apply `str` to strings and to
opaque objects (whose rendering the model carries verbatim); the textual
rendering of composite values is abstracted. -/
def PyVal.pyStr : PyVal → String
  | .vstr s => s
  | .vint n => toString n
  | .vfloat q => toString q
  | .vbool b => cond b "True" "False"
  | .vlist _ => "<python list>"
  | .vdict _ => "<python dict>"
  | .vnone => "None"
  | .vobj s => s

/-- The shallow type test performed by `serialize_span`:
`isinstance(v, (str, int, float, bool, list, dict)) or v is None`.
True for every value except an opaque object. -/
def PyVal.isJsonType : PyVal → Bool
  | .vobj _ => false
  | _ => true

mutual

/-- Deep JSON representability: no opaque object anywhere inside the value.
This is the property `json.dumps` needs, used to state the serializer
invariant of the spec. -/
def PyVal.jsonSafe : PyVal → Bool
  | .vstr _ => true
  | .vint _ => true
  | .vfloat _ => true
  | .vbool _ => true
  | .vlist xs => jsonSafeList xs
  | .vdict xs => jsonSafeDict xs
  | .vnone => true
  | .vobj _ => false

/-- All elements of a list are deeply JSON representable. -/
def jsonSafeList : List PyVal → Bool
  | [] => true
  | x :: xs => x.jsonSafe && jsonSafeList xs

/-- All values of an attribute mapping are deeply JSON representable. -/
def jsonSafeDict : List (String × PyVal) → Bool
  | [] => true
  | p :: xs => p.2.jsonSafe && jsonSafeDict xs

end

/-- `dict.get(k)` on an attribute mapping. -/
def lookupAttr (attrs : List (String × PyVal)) (k : String) : Option PyVal :=
  attrs.lookup k

/-- Zero-padded lowercase hexadecimal, `format(n, f"0{width}x")`. -/
def hexPad (n : Nat) (width : Nat) : String :=
  let ds := Nat.toDigits 16 n
  String.mk (List.replicate (width - ds.length) '0' ++ ds)

/-- `_hex(n, width)` from new_processor.py: `None` maps to `None`. -/
def pyHex (n : Option Nat) (width : Nat) : Option String :=
  n.map (fun m => hexPad m width)

/-- Model of an OpenTelemetry `ReadableSpan` as far as the pipeline reads it.
An absent attribute mapping is represented by `[]` (the code only ever
uses `span.attributes or {}`, which identifies the two). -/
structure ReadableSpan where
  name : String
  trace_id : Option Nat
  span_id : Option Nat
  parent_span_id : Option Nat
  start_time : Option Int
  end_time : Option Int
  attributes : List (String × PyVal)
  resource_attrs : Option (List (String × PyVal))
  status : Option String

/-- The JSON-safe structure produced by `serialize_span`. -/
structure SerializedSpan where
  name : String
  context_trace_id : Option String
  context_span_id : Option String
  parent_id : Option String
  start_time : Option Int
  end_time : Option Int
  attributes : List (String × PyVal)
  resource_attributes : List (String × PyVal)
  status_code : String

/-- The per-value coercion of `serialize_span`: values of JSON runtime
type pass through, anything else is replaced by its `str()`. -/
def coerceValue (v : PyVal) : PyVal :=
  if v.isJsonType then v else PyVal.vstr v.pyStr

/-- `serialize_span` from new_processor.py. -/
def serialize_span (span : ReadableSpan) : SerializedSpan :=
  { name := span.name
    context_trace_id := pyHex span.trace_id 32
    context_span_id := pyHex span.span_id 16
    parent_id :=
      match span.parent_span_id with
      | some p => pyHex (some p) 16
      | none => none
    start_time := span.start_time
    end_time := span.end_time
    attributes := span.attributes.map (fun p => (p.1, coerceValue p.2))
    resource_attributes :=
      match span.resource_attrs with
      | some attrs => attrs.map (fun p => (p.1, coerceValue p.2))
      | none => []
    status_code := span.status.getD "UNSET" }

/-- `choose_external_trace_id` from new_processor.py.  `fresh` stands for
the `str(uuid4())` drawn in the absolute-fallback branch. -/
def choose_external_trace_id (fresh : String) (s : SerializedSpan) : String :=
  let sessionV := (lookupAttr s.resource_attributes "neatlogs.session_id").getD .vnone
  if sessionV.truthy then sessionV.pyStr
  else
    let threadV := (lookupAttr s.resource_attributes "neatlogs.thread_id").getD .vnone
    if threadV.truthy then threadV.pyStr
    else
      match s.context_trace_id with
      | some t => if t.isEmpty then fresh else t
      | none => fresh

/-- `NewLLMCallData` from new_core.py: one delivery item. -/
structure NewLLMCallData where
  trace_id : String
  span : SerializedSpan
  api_key : Option String

/-- An entry of the delivery queue: a real item or the `_STOP` sentinel. -/
inductive QItem where
  | item : NewLLMCallData → QItem
  | stop : QItem

/-- State of an `LLMTracker` instance together with the observable history
of its background sender: `queue` holds the entries put but not yet taken
by the worker (FIFO, front = oldest), `workerAlive` records whether the
sender thread is still in its loop, `attempts` the delivery items handed
to `_send_to_server_sync` in order, `posts` the HTTP POSTs actually issued
paired with their transport outcome, `infoLog`/`errLog` the processor
logger output. -/
structure Tracker where
  session_id : String
  agent_id : String
  thread_id : String
  tags : List String
  api_key : String
  dry_run : Bool
  enable_server_sending : Bool
  enable_otel : Bool
  queue : List QItem
  workerAlive : Bool
  attempts : List NewLLMCallData
  posts : List (NewLLMCallData × Bool)
  infoLog : List String
  errLog : List String

/-- Python `x or y` for an optional string: `None` and `""` are falsy. -/
def orDefault (o : Option String) (d : String) : String :=
  match o with
  | some s => if s.isEmpty then d else s
  | none => d

/-- `LLMTracker.__init__` from new_core.py.  `fresh_session` and
`fresh_thread` stand for the two `str(uuid4())` values drawn when the
respective identifier is not supplied. -/
def LLMTracker.mk (api_key : String)
    (session_id agent_id thread_id : Option String)
    (tags : Option (List String))
    (enable_server_sending enable_otel dry_run : Bool)
    (fresh_session fresh_thread : String) : Tracker :=
  { session_id := orDefault session_id fresh_session
    agent_id := orDefault agent_id "default-agent"
    thread_id := orDefault thread_id fresh_thread
    tags := match tags with
      | some ts => if ts.isEmpty then [] else ts
      | none => []
    api_key := api_key
    dry_run := dry_run
    enable_server_sending := if dry_run then false else enable_server_sending
    enable_otel := if dry_run then true else enable_otel
    queue := []
    workerAlive := true
    attempts := []
    posts := []
    infoLog := []
    errLog := [] }

/-- `LLMTracker._enqueue_span`: unconditionally put the item on the queue. -/
def LLMTracker.enqueue_span (tr : Tracker) (d : NewLLMCallData) : Tracker :=
  { tr with queue := tr.queue ++ [QItem.item d] }

/-- `LLMTracker.add_tags`: append each tag not already present. -/
def LLMTracker.add_tags (tr : Tracker) (tags : List String) : Tracker :=
  { tr with tags := tags.foldl (fun acc tag => if acc.contains tag then acc else acc ++ [tag]) tr.tags }

/-- One exhaustion of `_send_worker`'s loop over the current queue
contents: collect the delivery items handed to `_send_to_server_sync`, in
order, until the `_STOP` sentinel (second component: entries left behind
after the worker breaks; third: whether the sentinel was consumed, i.e.
the loop terminated). -/
def runWorker : List QItem → List NewLLMCallData × List QItem × Bool
  | [] => ([], [], false)
  | QItem.stop :: rest => ([], rest, true)
  | QItem.item d :: rest =>
    let r := runWorker rest
    (d :: r.1, r.2.1, r.2.2)

/-- Effect of the worker consuming the current queue contents:
each consumed item is one delivery attempt; `_send_to_server_sync` issues
an HTTP POST exactly when `enable_server_sending`, and its outcome
(`transport`) is swallowed (`raise_for_status` failures are caught and
logged). -/
def runWorkerOn (transport : NewLLMCallData → Bool) (tr : Tracker) : Tracker :=
  let r := runWorker tr.queue
  { tr with
    queue := r.2.1
    workerAlive := tr.workerAlive && !r.2.2
    attempts := tr.attempts ++ r.1
    posts := tr.posts ++
      (if tr.enable_server_sending then r.1.map (fun d => (d, transport d)) else []) }

/-- `queue.join()` as called by `shutdown`: returns the state once every
queue entry has been marked done, or `none` when that will never happen
(all entries still unfinished but the worker thread has already exited),
i.e. the call blocks forever. -/
def joinQueue (transport : NewLLMCallData → Bool) (tr : Tracker) : Option Tracker :=
  if tr.queue.isEmpty then some tr
  else if tr.workerAlive then
    let tr' := runWorkerOn transport tr
    if tr'.queue.isEmpty then some tr' else none
  else none

/-- `LLMTracker.shutdown` from new_core.py: put the `_STOP` sentinel, then
block on `queue.join()` (the subsequent bounded-timeout thread join and
the owned-provider OTel shutdown always return and do not affect the
modelled state).  `none` means the call never returns. -/
def LLMTracker.shutdown (transport : NewLLMCallData → Bool) (tr : Tracker) : Option Tracker :=
  joinQueue transport { tr with queue := tr.queue ++ [QItem.stop] }

/-- The dry-run log line of `NeatlogsSpanProcessor.on_end`. -/
def mkLogLineDryRun (externalTraceId : String) : String :=
  "[Dry Run] Captured span for trace " ++ externalTraceId

/-- The `logger.error` line of `NeatlogsSpanProcessor.on_end`'s handler. -/
def processorErrMsg (e : String) : String :=
  "Neatlogs: Failed to process span: " ++ e

/-- Body of the `try` block of `NeatlogsSpanProcessor.on_end`.  `fault`
injects an exception raised while inspecting/serializing/grouping the
span (i.e. before the enqueue step); `fresh` stands for the `uuid4` the
grouping resolver would draw in its absolute-fallback branch. -/
def onEndBody (fault : Option String) (fresh : String) (span : ReadableSpan)
    (tr : Tracker) : Except String Tracker :=
  match fault with
  | some e => Except.error e
  | none =>
    let span_kind := (lookupAttr span.attributes "openinference.span.kind").getD .vnone
    if !span_kind.truthy then Except.ok tr
    else
      let serialized := serialize_span span
      let external_trace_id := choose_external_trace_id fresh serialized
      let call_data : NewLLMCallData :=
        { trace_id := external_trace_id, span := serialized, api_key := some tr.api_key }
      if tr.enable_server_sending && !tr.dry_run then
        Except.ok (LLMTracker.enqueue_span tr call_data)
      else if tr.dry_run then
        Except.ok { tr with infoLog := tr.infoLog ++ [mkLogLineDryRun external_trace_id] }
      else
        Except.ok tr

/-- `NeatlogsSpanProcessor.on_end`, with an injectable fault: `None`
spans are ignored, and any exception raised inside the body is caught and
logged, never propagated. -/
def onEndWith (fault : Option String) (fresh : String) (span : Option ReadableSpan)
    (tr : Tracker) : Tracker :=
  match span with
  | none => tr
  | some sp =>
    match onEndBody fault fresh sp tr with
    | Except.ok tr' => tr'
    | Except.error e => { tr with errLog := tr.errLog ++ [processorErrMsg e] }

/-- `NeatlogsSpanProcessor.on_end` on the fault-free path. -/
def onEnd (fresh : String) (span : Option ReadableSpan) (tr : Tracker) : Tracker :=
  onEndWith none fresh span tr

/-- `NeatlogsSpanProcessor.on_start`: performs no work. -/
def onStart (_span : Option ReadableSpan) (_parent_context : Option Unit)
    (tr : Tracker) : Tracker :=
  tr

/-- The two module-level tracker slots of the package: `initModuleTracker`
is `_global_tracker` of neatlogs/__init__.py (the one `init` assigns),
`newCoreTracker` is `_global_tracker` of neatlogs/new_core.py (the one
`get_tracker` reads; no code in the repository ever assigns it). -/
structure Globals where
  initModuleTracker : Option Tracker
  newCoreTracker : Option Tracker

/-- `get_tracker` from new_core.py (re-exported by the package):
returns new_core's module-level slot. -/
def get_tracker (g : Globals) : Option Tracker :=
  g.newCoreTracker

/-- `init` from neatlogs/__init__.py: under the init lock, construct the
tracker (session/agent/thread ids are always passed as `None`) into the
package module's own `_global_tracker` slot if empty, and return that
slot's tracker. -/
def init (g : Globals) (api_key : String) (tags : Option (List String))
    (enable_otel dry_run : Bool) (fresh_session fresh_thread : String) :
    Tracker × Globals :=
  match g.initModuleTracker with
  | some t => (t, g)
  | none =>
    let t := LLMTracker.mk api_key none none none tags true enable_otel dry_run
      fresh_session fresh_thread
    (t, { g with initModuleTracker := some t })

/-- The tracking-identity triple of a tracker. -/
def idsOf (tr : Tracker) : String × String × String :=
  (tr.session_id, tr.agent_id, tr.thread_id)

/-- Whether `sub` occurs as a contiguous run inside `l` (Python `sub in s`). -/
def containsAux (sub : List Char) : List Char → Bool
  | [] => sub.isEmpty
  | c :: t => List.isPrefixOf sub (c :: t) || containsAux sub t

/-- Whether the string `sub` occurs inside `s` (Python `sub in s`),
used to state that a log line mentions an identifier. -/
def strContains (s sub : String) : Bool :=
  containsAux sub.data s.data

/-- A transport stub that always reports success. -/
def alwaysOk : NewLLMCallData → Bool := fun _ => true

/-- A concrete running tracker (server sending on, dry run off). -/
def exTracker : Tracker :=
  LLMTracker.mk "key" none none none none true false false "uuid-1" "uuid-2"

/-- A concrete dry-run tracker. -/
def dryTracker : Tracker :=
  LLMTracker.mk "key" none none none none true false true "uuid-1" "uuid-2"

/-- A concrete qualifying span: carries the kind attribute, a model name,
and a session id in its resource. -/
def exSpan : ReadableSpan :=
  { name := "openai.chat"
    trace_id := some 7
    span_id := some 3
    parent_span_id := none
    start_time := some 10
    end_time := some 20
    attributes := [("openinference.span.kind", PyVal.vstr "LLM"),
                   ("llm.model_name", PyVal.vstr "gpt-x")]
    resource_attrs := some [("neatlogs.session_id", PyVal.vstr "sess-1")]
    status := some "OK" }

/-- A concrete span without the kind attribute (an infrastructure span). -/
def plainSpan : ReadableSpan :=
  { name := "http.request"
    trace_id := some 9
    span_id := some 4
    parent_span_id := some 3
    start_time := some 10
    end_time := some 20
    attributes := [("http.method", PyVal.vstr "GET")]
    resource_attrs := none
    status := none }

/-- A concrete span whose attribute value is a list holding a non-JSON
object. -/
def badSpan : ReadableSpan :=
  { name := "tool.call"
    trace_id := some 1
    span_id := some 2
    parent_span_id := none
    start_time := some 0
    end_time := some 0
    attributes := [("payload", PyVal.vlist [PyVal.vobj "<Foo object at 0x1>"])]
    resource_attrs := none
    status := none }

/-- A concrete delivery item with a given trace id. -/
def dEx (t : String) : NewLLMCallData :=
  { trace_id := t, span := serialize_span exSpan, api_key := some "key" }

/-- A running tracker with three delivery items `a`, `b`, `c` enqueued. -/
def c2Tracker : Tracker :=
  { exTracker with queue := [QItem.item (dEx "a"), QItem.item (dEx "b"), QItem.item (dEx "c")] }

/-- Session-id attribute of a serialized span is absent or Python-falsy. -/
def sessionFalsy (s : SerializedSpan) : Prop :=
  ((lookupAttr s.resource_attributes "neatlogs.session_id").getD .vnone).truthy = false

/-- Thread-id attribute of a serialized span is absent or Python-falsy. -/
def threadFalsy (s : SerializedSpan) : Prop :=
  ((lookupAttr s.resource_attributes "neatlogs.thread_id").getD .vnone).truthy = false

/-- The worker drains a queue of plain items followed by the sentinel:
every item is attempted, in order, and the loop terminates. -/
theorem runWorker_items_stop (items : List NewLLMCallData) :
    runWorker (items.map QItem.item ++ [QItem.stop]) = (items, [], true) := by
  induction items with
  | nil => rfl
  | cons d rest ih => simp [runWorker, ih]

/-- Computation of a first `shutdown` from a running tracker whose queue
holds only plain items: the worker drains all of them and terminates. -/
theorem shutdown_eq (tr : Tracker) (items : List NewLLMCallData)
    (tp : NewLLMCallData → Bool)
    (hq : tr.queue = items.map QItem.item) (hw : tr.workerAlive = true) :
    LLMTracker.shutdown tp tr = some { tr with
      queue := []
      workerAlive := false
      attempts := tr.attempts ++ items
      posts := tr.posts ++
        (if tr.enable_server_sending then items.map (fun d => (d, tp d)) else []) } := by
  unfold LLMTracker.shutdown joinQueue runWorkerOn
  simp [hq, hw, runWorker_items_stop]

/-- A list is a prefix of itself, in boolean form. -/
theorem isPrefixOf_self (l : List Char) : List.isPrefixOf l l = true := by
  induction l with
  | nil => rfl
  | cons c t ih => simp [List.isPrefixOf, ih]

/-- `containsAux` finds `sub` when some suffix of the haystack starts with it. -/
theorem containsAux_append (sub b : List Char) (hb : List.isPrefixOf sub b = true)
    (a : List Char) : containsAux sub (a ++ b) = true := by
  induction a with
  | nil =>
    cases b with
    | nil => simpa [containsAux, List.isPrefixOf] using hb
    | cons c t => simp [containsAux, hb]
  | cons c a ih => simp [containsAux, ih]

/-- Any string contains its own suffix. -/
theorem strContains_append_right (p sub : String) :
    strContains (p ++ sub) sub = true := by
  unfold strContains
  rw [show (p ++ sub).data = p.data ++ sub.data from String.data_append p sub]
  exact containsAux_append sub.data sub.data (isPrefixOf_self sub.data) p.data

/-- Coercion always yields a value of JSON runtime type at top level. -/
theorem coerce_isJsonType (v : PyVal) : (coerceValue v).isJsonType = true := by
  cases v <;> simp [coerceValue, PyVal.isJsonType, PyVal.pyStr]

/-- The fault-free processor body never changes the tracking identity. -/
theorem onEndBody_none_ids (fr : String) (s : ReadableSpan) (tr tr' : Tracker)
    (h : onEndBody none fr s tr = Except.ok tr') : idsOf tr' = idsOf tr := by
  cases hkind : ((lookupAttr s.attributes "openinference.span.kind").getD PyVal.vnone).truthy <;>
    cases hess : tr.enable_server_sending <;>
    cases hdr : tr.dry_run <;>
    simp [onEndBody, hkind, hess, hdr, LLMTracker.enqueue_span] at h <;>
    (subst h; rfl)

/-- When `queue.join()` returns, the tracking identity is untouched: the
worker only changes queue, liveness and delivery history. -/
theorem joinQueue_ids (tp : NewLLMCallData → Bool) (x tr' : Tracker)
    (h : joinQueue tp x = some tr') : idsOf tr' = idsOf x := by
  simp only [joinQueue] at h
  repeat' split at h
  all_goals (try cases h)
  all_goals rfl

/-- C1: after `init` on a fresh process creates a tracker, the package
module's own `_global_tracker` slot is filled, but `get_tracker()` (which
reads new_core's never-assigned `_global_tracker`) still returns absent —
contradicting the claim that `getTracker()` returns the handle `init`
returned. -/
theorem c1_get_tracker_absent_after_init :
    (init ⟨none, none⟩ "key" none false false "uuid-1" "uuid-2").2.initModuleTracker.isSome = true
    ∧ get_tracker (init ⟨none, none⟩ "key" none false false "uuid-1" "uuid-2").2 = none :=
  ⟨rfl, rfl⟩

/-- C2: if `N` items (and nothing else) sit in the delivery queue of a
running tracker when `shutdown` is invoked, the worker performs exactly
those `N` delivery attempts, in enqueue order, before it terminates, for
every transport outcome; with server sending enabled each attempt is one
POST, in the same order. -/
theorem c2_shutdown_drains_all_items (tr : Tracker) (items : List NewLLMCallData)
    (tp : NewLLMCallData → Bool)
    (hq : tr.queue = items.map QItem.item) (hw : tr.workerAlive = true)
    (hs : tr.enable_server_sending = true) :
    ∃ tr', LLMTracker.shutdown tp tr = some tr'
      ∧ tr'.attempts = tr.attempts ++ items
      ∧ tr'.posts = tr.posts ++ items.map (fun d => (d, tp d))
      ∧ tr'.queue = [] ∧ tr'.workerAlive = false := by
  refine ⟨_, shutdown_eq tr items tp hq hw, ?_, ?_, rfl, rfl⟩
  · rfl
  · simp [hs]

/-- C2 witness: three items with trace ids a, b, c against an
always-successful transport are all attempted, in the order a, b, c. -/
theorem c2_shutdown_drains_all_items_witness :
    ∃ tr', LLMTracker.shutdown alwaysOk c2Tracker = some tr'
      ∧ tr'.attempts = c2Tracker.attempts ++ [dEx "a", dEx "b", dEx "c"]
      ∧ tr'.posts = c2Tracker.posts ++ [dEx "a", dEx "b", dEx "c"].map (fun d => (d, alwaysOk d))
      ∧ tr'.queue = [] ∧ tr'.workerAlive = false :=
  c2_shutdown_drains_all_items c2Tracker [dEx "a", dEx "b", dEx "c"] alwaysOk rfl rfl rfl

/-- C3: the claim says a second `shutdown` terminates as a no-op; on the
code, the first `shutdown` of a drained tracker returns, but the second
puts a second sentinel after the worker thread has already exited, so its
`queue.join()` blocks forever (modelled as `none`). -/
theorem c3_second_shutdown_blocks :
    (LLMTracker.shutdown alwaysOk exTracker).isSome = true
    ∧ (LLMTracker.shutdown alwaysOk exTracker).bind (LLMTracker.shutdown alwaysOk) = none :=
  ⟨rfl, rfl⟩

/-- C4 counterexample: after a completed `shutdown` (stop sentinel
enqueued and consumed, queue drained to empty), a processor invocation on
a qualifying span still adds an item to the queue — the enqueue path is
not stopped. -/
theorem c4_enqueue_after_shutdown_ce :
    (LLMTracker.shutdown alwaysOk exTracker).map
      (fun tr1 => (onEnd "fresh" (some exSpan) tr1).queue.length) = some 1 :=
  rfl

/-- C4 amended: `shutdown` leaves the processor's enqueue path untouched —
for any tracker with server sending on and dry run off (no field of which
`shutdown` changes), a qualifying span is appended to the queue
unconditionally; keeping the queue free of post-sentinel items is the
orchestrator's obligation, not enforced by the code. -/
theorem c4_enqueue_path_ignores_shutdown (fresh : String) (span : ReadableSpan)
    (tr : Tracker)
    (hsend : tr.enable_server_sending = true) (hdry : tr.dry_run = false)
    (hkind : ((lookupAttr span.attributes "openinference.span.kind").getD .vnone).truthy = true) :
    ∃ d, onEnd fresh (some span) tr = { tr with queue := tr.queue ++ [QItem.item d] } := by
  refine ⟨{ trace_id := choose_external_trace_id fresh (serialize_span span),
            span := serialize_span span, api_key := some tr.api_key }, ?_⟩
  simp [onEnd, onEndWith, onEndBody, hkind, hsend, hdry, LLMTracker.enqueue_span]

/-- C4 amended, witness at a concrete post-shutdown-shaped tracker. -/
theorem c4_enqueue_path_ignores_shutdown_witness :
    ∃ d, onEnd "fresh" (some exSpan) exTracker
      = { exTracker with queue := exTracker.queue ++ [QItem.item d] } :=
  c4_enqueue_path_ignores_shutdown "fresh" exSpan exTracker rfl rfl rfl

/-- C5: an exception raised while processing a span is caught by
`on_end`, logged to the processor's error log, and changes nothing else
(so it does not propagate and subsequent spans are processed from an
otherwise identical state); `on_start` performs no work at all. -/
theorem c5_on_end_catches_on_start_noop (e fresh : String) (span : ReadableSpan)
    (tr : Tracker) :
    onEndWith (some e) fresh (some span) tr
      = { tr with errLog := tr.errLog ++ [processorErrMsg e] }
    ∧ (∀ sp pc tr2, onStart sp pc tr2 = tr2) :=
  ⟨rfl, fun _ _ _ => rfl⟩

/-- C6: grouping precedence of the resolver — a present, non-empty
session-id resource attribute wins; otherwise a present, non-empty
thread-id; otherwise the span's own trace id; a fresh random identifier
only when the trace id too is absent. -/
theorem c6_grouping_precedence (fresh : String) (s : SerializedSpan) :
    (∀ v : String, lookupAttr s.resource_attributes "neatlogs.session_id" = some (PyVal.vstr v) →
        v ≠ "" → choose_external_trace_id fresh s = v)
    ∧ (∀ v : String, sessionFalsy s →
        lookupAttr s.resource_attributes "neatlogs.thread_id" = some (PyVal.vstr v) →
        v ≠ "" → choose_external_trace_id fresh s = v)
    ∧ (sessionFalsy s → threadFalsy s → ∀ t : String, s.context_trace_id = some t →
        t ≠ "" → choose_external_trace_id fresh s = t)
    ∧ (sessionFalsy s → threadFalsy s → s.context_trace_id = none →
        choose_external_trace_id fresh s = fresh) := by
  refine ⟨?_, ?_, ?_, ?_⟩
  · intro v hv hne
    have hne' : v.isEmpty = false := by
      cases h : v.isEmpty
      · rfl
      · exact absurd ((String.isEmpty_iff v).mp h) hne
    simp [choose_external_trace_id, hv, PyVal.truthy, PyVal.pyStr, hne']
  · intro v hsess hv hne
    unfold sessionFalsy at hsess
    have hne' : v.isEmpty = false := by
      cases h : v.isEmpty
      · rfl
      · exact absurd ((String.isEmpty_iff v).mp h) hne
    simp only [choose_external_trace_id, hsess]
    simp [hv, PyVal.truthy, PyVal.pyStr, hne']
  · intro hsess hthr t ht hne
    unfold sessionFalsy at hsess
    unfold threadFalsy at hthr
    have hne' : t.isEmpty = false := by
      cases h : t.isEmpty
      · rfl
      · exact absurd ((String.isEmpty_iff t).mp h) hne
    simp only [choose_external_trace_id, hsess, hthr]
    simp [ht, hne']
  · intro hsess hthr ht
    unfold sessionFalsy at hsess
    unfold threadFalsy at hthr
    simp only [choose_external_trace_id, hsess, hthr]
    simp [ht]

/-- C6 witness: on the serialization of a concrete span whose resource
carries a session id, the resolver returns that session id. -/
theorem c6_grouping_precedence_witness :
    choose_external_trace_id "fresh" (serialize_span exSpan) = "sess-1" :=
  (c6_grouping_precedence "fresh" (serialize_span exSpan)).1 "sess-1" rfl (by decide)

/-- C7: a span lacking the `openinference.span.kind` attribute is ignored
by `on_end`: no serialization result is used, nothing is enqueued, and
the tracker state is returned unchanged. -/
theorem c7_missing_kind_no_effect (fresh : String) (span : ReadableSpan) (tr : Tracker)
    (h : lookupAttr span.attributes "openinference.span.kind" = none) :
    onEnd fresh (some span) tr = tr := by
  simp [onEnd, onEndWith, onEndBody, h, PyVal.truthy]

/-- C7 witness: a concrete infrastructure span leaves a concrete tracker
untouched. -/
theorem c7_missing_kind_no_effect_witness :
    onEnd "fresh" (some plainSpan) exTracker = exTracker :=
  c7_missing_kind_no_effect "fresh" plainSpan exTracker rfl

/-- C8 counterexample: the type check of `serialize_span` is shallow, so
an attribute value that is a list holding a non-JSON object passes
through unchanged and the object reference survives serialization — the
resulting serialized span is not directly representable in JSON. -/
theorem c8_nested_object_survives_ce :
    (serialize_span badSpan).attributes
        = [("payload", PyVal.vlist [PyVal.vobj "<Foo object at 0x1>"])]
    ∧ jsonSafeDict (serialize_span badSpan).attributes = false := by
  constructor
  · rfl
  · simp [serialize_span, badSpan, coerceValue, PyVal.isJsonType,
      jsonSafeDict, jsonSafeList, PyVal.jsonSafe]

/-- C8 amended: serialization maps each top-level attribute and
resource-attribute value with the shallow coercion — values of JSON
runtime type pass through unchanged, any other value is replaced by its
string representation — so every top-level value of the serialized span
has a JSON runtime type; the coercion does not descend into lists or
mappings, so nested object references can survive. -/
theorem c8_shallow_coercion (span : ReadableSpan) :
    (serialize_span span).attributes
        = span.attributes.map (fun p => (p.1, coerceValue p.2))
    ∧ (∀ v : PyVal, v.isJsonType = true → coerceValue v = v)
    ∧ (∀ v : PyVal, v.isJsonType = false → coerceValue v = PyVal.vstr v.pyStr)
    ∧ (∀ p, p ∈ (serialize_span span).attributes → p.2.isJsonType = true)
    ∧ (∀ p, p ∈ (serialize_span span).resource_attributes → p.2.isJsonType = true) := by
  refine ⟨rfl, ?_, ?_, ?_, ?_⟩
  · intro v hv
    simp [coerceValue, hv]
  · intro v hv
    simp [coerceValue, hv]
  · intro p hp
    rcases List.mem_map.mp hp with ⟨a, _, rfl⟩
    exact coerce_isJsonType a.2
  · intro p hp
    cases hres : span.resource_attrs with
    | none => simp [serialize_span, hres] at hp
    | some attrs =>
      simp only [serialize_span, hres] at hp
      rcases List.mem_map.mp hp with ⟨a, _, rfl⟩
      exact coerce_isJsonType a.2

/-- C8 amended, witness: an opaque object at top level is stringified. -/
theorem c8_shallow_coercion_witness :
    coerceValue (PyVal.vobj "<Foo object at 0x1>")
      = PyVal.vstr "<Foo object at 0x1>" :=
  (c8_shallow_coercion badSpan).2.2.1 (PyVal.vobj "<Foo object at 0x1>") rfl

/-- C9 counterexample: in dry-run mode the log line emitted for a
qualifying span with kind `LLM` and model `gpt-x` mentions only the
grouping identifier; it does not describe the span's model or kind. -/
theorem c9_dry_run_log_omits_model_ce :
    (onEnd "fresh" (some exSpan) dryTracker).infoLog
        = ["[Dry Run] Captured span for trace sess-1"]
    ∧ strContains "[Dry Run] Captured span for trace sess-1" "gpt-x" = false
    ∧ strContains "[Dry Run] Captured span for trace sess-1" "LLM" = false :=
  ⟨rfl, by decide, by decide⟩

/-- C9 amended: with dry-run enabled, a qualifying span causes no enqueue
and no POST; `on_end` emits exactly one log line, which mentions the
grouping identifier (but carries no further description of the span). -/
theorem c9_dry_run_no_enqueue_logs_id (fresh : String) (span : ReadableSpan)
    (tr : Tracker) (hdry : tr.dry_run = true)
    (hkind : ((lookupAttr span.attributes "openinference.span.kind").getD .vnone).truthy = true) :
    (onEnd fresh (some span) tr).queue = tr.queue
    ∧ (onEnd fresh (some span) tr).posts = tr.posts
    ∧ (onEnd fresh (some span) tr).infoLog
        = tr.infoLog ++ [mkLogLineDryRun (choose_external_trace_id fresh (serialize_span span))]
    ∧ strContains (mkLogLineDryRun (choose_external_trace_id fresh (serialize_span span)))
        (choose_external_trace_id fresh (serialize_span span)) = true := by
  refine ⟨?_, ?_, ?_, strContains_append_right _ _⟩ <;>
    simp [onEnd, onEndWith, onEndBody, hkind, hdry]

/-- C9 amended, witness at a concrete dry-run tracker and span. -/
theorem c9_dry_run_no_enqueue_logs_id_witness :
    (onEnd "fresh" (some exSpan) dryTracker).queue = dryTracker.queue
    ∧ (onEnd "fresh" (some exSpan) dryTracker).posts = dryTracker.posts
    ∧ (onEnd "fresh" (some exSpan) dryTracker).infoLog
        = dryTracker.infoLog ++ [mkLogLineDryRun (choose_external_trace_id "fresh" (serialize_span exSpan))]
    ∧ strContains (mkLogLineDryRun (choose_external_trace_id "fresh" (serialize_span exSpan)))
        (choose_external_trace_id "fresh" (serialize_span exSpan)) = true :=
  c9_dry_run_no_enqueue_logs_id "fresh" exSpan dryTracker rfl rfl

/-- C10 counterexample: with no agent id supplied, the tracker assigns
the fixed string "default-agent", not a freshly generated random
identifier (it differs from every identifier drawn for this creation). -/
theorem c10_agent_id_constant_ce :
    (LLMTracker.mk "key" none none none none true false false "uuid-1" "uuid-2").agent_id
        = "default-agent"
    ∧ "default-agent" ≠ "uuid-1" ∧ "default-agent" ≠ "uuid-2" :=
  ⟨rfl, by decide, by decide⟩

/-- C10 amended: when not supplied, sessionId and threadId are assigned
the freshly drawn random identifiers and agentId the fixed string
"default-agent"; all three identifiers are unchanged by add_tags, by span
processing (with or without a fault), and by shutdown. -/
theorem c10_identity_fixed_and_immutable (api fresh_s fresh_t : String)
    (tags0 : Option (List String)) (ess eot dr : Bool) :
    idsOf (LLMTracker.mk api none none none tags0 ess eot dr fresh_s fresh_t)
        = (fresh_s, "default-agent", fresh_t)
    ∧ (∀ tr ts, idsOf (LLMTracker.add_tags tr ts) = idsOf tr)
    ∧ (∀ tr f fr sp, idsOf (onEndWith f fr sp tr) = idsOf tr)
    ∧ (∀ tr tp, idsOf ((LLMTracker.shutdown tp tr).getD tr) = idsOf tr) := by
  refine ⟨rfl, fun _ _ => rfl, ?_, ?_⟩
  · intro tr f fr sp
    cases sp with
    | none => rfl
    | some s =>
      cases f with
      | some e => rfl
      | none =>
        cases hb : onEndBody none fr s tr with
        | ok tr' =>
          simp only [onEndWith, hb]
          exact onEndBody_none_ids fr s tr tr' hb
        | error e => simp [onEndWith, hb, idsOf]
  · intro tr tp
    cases hs : LLMTracker.shutdown tp tr with
    | none => rfl
    | some tr' =>
      show idsOf tr' = idsOf tr
      exact joinQueue_ids tp { tr with queue := tr.queue ++ [QItem.stop] } tr' hs

end Neatlogs
